import Mathlib

/-!
Shallow embedding of the conversational orchestration pipeline in
`src/main.rs` (dspy-rs search example).

The pipeline stages (`IntentClassifier::classify`, `SearchTool::search`,
`PersonalityChat::respond`, `ConversationalAgent::forward`) and the
interactive loop of `main` are translated as Lean functions.  The external
language-model calls (`Predict::forward_with_config` on each of the three
predictors) are opaque collaborators, modelled as functions packaged in an
`Env` record that map the input fields of the call to either an error (the
`Err` case of the Rust `Result`) or a structured output (a list of named
field values).  Rust `panic` (from `Option::unwrap` / `Value::as_str().unwrap()`)
is modelled as a third outcome, distinct from a recoverable error.
-/

set_option autoImplicit false

namespace DspySearch

/-- A field value of a structured message.  `str` is a JSON string; `other`
models any non-string JSON value, carrying its rendered text form. -/
inductive Value where
  | str : String → Value
  | other : String → Value
deriving Repr, DecidableEq

/-- `Value::to_string()` / rendering a field value to text. -/
def renderValue : Value → String
  | Value.str s => s
  | Value.other r => r

/-- Structured message payload: ordered named fields, as in `Example.data` /
`Prediction` of dspy-rs. -/
abbrev Fields : Type := List (String × Value)

/-- First-match field lookup, as `data.get(key)`. -/
def getField : Fields → String → Option Value
  | [], _ => none
  | (k, v) :: rest, key => if k = key then some v else getField rest key

/-- Outcome of running a piece of Rust code: normal return, a propagated
`anyhow::Error` (the `Err`/`?` path), or a process-aborting panic. -/
inductive Outcome (α : Type) where
  | ok : α → Outcome α
  | err : String → Outcome α
  | panic : Outcome α
deriving Repr, DecidableEq

/-- `result.get(field, None).as_str().unwrap()`: returns the string, and
panics when the field is absent or not a string. -/
def unwrapStr (v : Option Value) : Outcome String :=
  match v with
  | some (Value.str s) => Outcome.ok s
  | _ => Outcome.panic

/-- True exactly when the field is present with a string value. -/
def isStrField (fields : Fields) (key : String) : Bool :=
  match getField fields key with
  | some (Value.str _) => true
  | _ => false

/-- The three opaque language-model call collaborators, one per predictor.
`classifierCall` receives the `user_message` field, `extractorCall` the
`user_question` field, `synthCall` the `conversation_history`,
`user_message` and `search_results` fields, in that order. -/
structure Env where
  classifierCall : String → Except String Fields
  extractorCall : String → Except String Fields
  synthCall : String → String → String → Except String Fields

/-- Mock search function of the source: ignores its query and returns a
fixed string; it cannot fail (plain `String`, no `Result`). -/
def search_web (_query : String) : String :=
  "Trump is currently the president in 2025"

/-- Rust `str::to_lowercase` (per-character lowering). -/
def lowerStr (s : String) : String :=
  String.mk (s.toList.map Char.toLower)

/-- Does the list start with the given needle? -/
def startsWithSeq : List Char → List Char → Bool
  | _, [] => true
  | [], _ :: _ => false
  | a :: as, b :: bs => a = b && startsWithSeq as bs

/-- Substring containment on character lists (Rust `str::contains`). -/
def containsSeq : List Char → List Char → Bool
  | [], needle => startsWithSeq [] needle
  | h :: t, needle => startsWithSeq (h :: t) needle || containsSeq t needle

/-- Rust `haystack.contains(needle)` for strings. -/
def strContains (hay needle : String) : Bool :=
  containsSeq hay.toList needle.toList

/-- The normalization step of `IntentClassifier::classify`: lowercase the
raw model output, map it to "search" when it contains the substring
"search", and to "chat" otherwise. -/
def normalizeIntent (raw : String) : String :=
  if strContains (lowerStr raw) "search" then "search" else "chat"

/-- `IntentClassifier::classify` (result value): call the classifier
predictor, unwrap the "intent" output field, normalize. -/
def classifyRes (env : Env) (message : String) : Outcome String :=
  match env.classifierCall message with
  | Except.error e => Outcome.err e
  | Except.ok fields =>
    match unwrapStr (getField fields "intent") with
    | Outcome.ok raw => Outcome.ok (normalizeIntent raw)
    | Outcome.err e => Outcome.err e
    | Outcome.panic => Outcome.panic

/-- `SearchTool::search` (result value): call the query-extraction
predictor, unwrap the "search_query" output field, then run the external
search function on the extracted query; returns `(query, results)`. -/
def searchRes (env : Env) (user_question : String) : Outcome (String × String) :=
  match env.extractorCall user_question with
  | Except.error e => Outcome.err e
  | Except.ok fields =>
    match unwrapStr (getField fields "search_query") with
    | Outcome.ok query => Outcome.ok (query, search_web query)
    | Outcome.err e => Outcome.err e
    | Outcome.panic => Outcome.panic

/-- `PersonalityChat::respond` (result value): call the synthesizer
predictor with `(conversation_history, user_message, search_results.unwrap_or(""))`
and unwrap the "response" output field. -/
def respondRes (env : Env) (user_message conversation_history : String)
    (search_results : Option String) : Outcome String :=
  match env.synthCall conversation_history user_message (Option.getD search_results "") with
  | Except.error e => Outcome.err e
  | Except.ok fields => unwrapStr (getField fields "response")

/-- Observable external calls made during one `forward` invocation, in
order: the classifier predictor call, the query-extraction predictor call,
the external `search_web` call (with the query passed), and the synthesizer
predictor call (with the three input field values passed). -/
inductive Event where
  | classifierCalled : String → Event
  | extractorCalled : String → Event
  | searchWebCalled : String → Event
  | synthCalled : String → String → String → Event
deriving Repr, DecidableEq

/-- Events emitted by a retrieval-tool invocation. -/
def isRetrievalEvent : Event → Bool
  | Event.extractorCalled _ => true
  | Event.searchWebCalled _ => true
  | _ => false

/-- Step 2 of `ConversationalAgent::forward`: when the intent is "search",
run the search tool; its `Err` is swallowed (`None`), but a panic inside it
propagates.  Otherwise no retrieval call happens. -/
def searchStep (env : Env) (user_message intent : String) :
    Outcome (Option String) × List Event :=
  if intent = "search" then
    match searchRes env user_message with
    | Outcome.ok (query, results) =>
        (Outcome.ok (some results),
         [Event.extractorCalled user_message, Event.searchWebCalled query])
    | Outcome.err _e => (Outcome.ok none, [Event.extractorCalled user_message])
    | Outcome.panic => (Outcome.panic, [Event.extractorCalled user_message])
  else (Outcome.ok none, [])

/-- Wrap the synthesized text into the `prediction! { "response" => response }`
value returned by `forward`, preserving error and panic outcomes. -/
def mapOut (o : Outcome String) : Outcome Fields :=
  match o with
  | Outcome.ok r => Outcome.ok [("response", Value.str r)]
  | Outcome.err e => Outcome.err e
  | Outcome.panic => Outcome.panic

/-- Body of `ConversationalAgent::forward` after reading the inputs:
classify (its error propagates via `?`), conditionally search, then
synthesize.  The event list records every external call made. -/
def forwardCore (env : Env) (user_message conversation_history : String) :
    Outcome Fields × List Event :=
  match classifyRes env user_message with
  | Outcome.err e => (Outcome.err e, [Event.classifierCalled user_message])
  | Outcome.panic => (Outcome.panic, [Event.classifierCalled user_message])
  | Outcome.ok intent =>
    match searchStep env user_message intent with
    | (Outcome.err e, evS) => (Outcome.err e, Event.classifierCalled user_message :: evS)
    | (Outcome.panic, evS) => (Outcome.panic, Event.classifierCalled user_message :: evS)
    | (Outcome.ok sr, evS) =>
      (mapOut (respondRes env user_message conversation_history sr),
       (Event.classifierCalled user_message :: evS) ++
         [Event.synthCalled conversation_history user_message (Option.getD sr "")])

/-- The rendered conversation history input: its field when present,
the empty string when the field is absent. -/
def historyOf (inputs : Fields) : String :=
  match getField inputs "conversation_history" with
  | some v => renderValue v
  | none => ""

/-- `ConversationalAgent::forward`: `inputs.data.get("user_message").unwrap()`
(panic when absent), default the conversation history to empty, then run the
three stages. -/
def forward (env : Env) (inputs : Fields) : Outcome Fields × List Event :=
  match getField inputs "user_message" with
  | none => (Outcome.panic, [])
  | some um => forwardCore env (renderValue um) (historyOf inputs)

/-- History rendering of `main`'s interactive loop: empty history becomes
the empty string, otherwise entries are joined with newlines. -/
def histStr (history : List String) : String :=
  if history.isEmpty then "" else String.intercalate "\n" history

/-- The `example!` built by the interactive loop for one turn. -/
def turnInputs (history : List String) (message : String) : Fields :=
  [("conversation_history", Value.str (histStr history)),
   ("user_message", Value.str message)]

/-- One iteration of `main`'s interactive loop on a non-empty, non-exit
message: run `forward`; on `Ok`, unwrap the "response" field and append the
"User: ..." and "Assistant: ..." lines to the history; on `Err`, print the
error and leave the history unchanged (`none` response). -/
def runTurn (env : Env) (history : List String) (message : String) :
    Outcome (List String × Option String) :=
  match (forward env (turnInputs history message)).1 with
  | Outcome.ok result =>
    match unwrapStr (getField result "response") with
    | Outcome.ok response =>
        Outcome.ok (history ++ ["User: " ++ message, "Assistant: " ++ response],
          some response)
    | Outcome.err e => Outcome.err e
    | Outcome.panic => Outcome.panic
  | Outcome.err _e => Outcome.ok (history, none)
  | Outcome.panic => Outcome.panic

/-- Run the interactive loop over a list of messages, returning the final
history together with the number of successful turns (turns that produced a
response). -/
def runSession (env : Env) : List String → List String → Outcome (List String × Nat)
  | history, [] => Outcome.ok (history, 0)
  | history, m :: ms =>
    match runTurn env history m with
    | Outcome.ok (h', some _r) =>
      (match runSession env h' ms with
       | Outcome.ok (hf, k) => Outcome.ok (hf, k + 1)
       | Outcome.err e => Outcome.err e
       | Outcome.panic => Outcome.panic)
    | Outcome.ok (h', none) => runSession env h' ms
    | Outcome.err e => Outcome.err e
    | Outcome.panic => Outcome.panic

/-- The history shape built from completed (user, assistant) exchanges:
one "User: ..." line then one "Assistant: ..." line per exchange. -/
def renderHistory : List (String × String) → List String
  | [] => []
  | (u, a) :: rest => ("User: " ++ u) :: ("Assistant: " ++ a) :: renderHistory rest

/-! ### Concrete environments used as witnesses and counterexamples -/

/-- All predictors succeed; classifier labels everything "chat". -/
def envChatOk : Env :=
  { classifierCall := fun _ => Except.ok [("intent", Value.str "chat")],
    extractorCall := fun _ => Except.ok [("search_query", Value.str "q")],
    synthCall := fun _ _ _ => Except.ok [("response", Value.str "4")] }

/-- All predictors succeed; classifier labels everything "search". -/
def envSearchOk : Env :=
  { classifierCall := fun _ => Except.ok [("intent", Value.str "search")],
    extractorCall := fun _ => Except.ok [("search_query", Value.str "president")],
    synthCall := fun _ _ _ => Except.ok [("response", Value.str "resp")] }

/-- The classifier call fails; everything else succeeds. -/
def envClassFail : Env :=
  { classifierCall := fun _ => Except.error "classifier down",
    extractorCall := fun _ => Except.ok [("search_query", Value.str "q")],
    synthCall := fun _ _ _ => Except.ok [("response", Value.str "hi")] }

/-- The synthesizer call fails; everything else succeeds. -/
def envSynthFail : Env :=
  { classifierCall := fun _ => Except.ok [("intent", Value.str "chat")],
    extractorCall := fun _ => Except.ok [("search_query", Value.str "q")],
    synthCall := fun _ _ _ => Except.error "synth down" }

/-- Classifier says "search" but the query-extraction call fails. -/
def envExtractFail : Env :=
  { classifierCall := fun _ => Except.ok [("intent", Value.str "search")],
    extractorCall := fun _ => Except.error "extract down",
    synthCall := fun _ _ _ => Except.ok [("response", Value.str "resp")] }

/-- The classifier call succeeds but its "intent" field is not a string. -/
def envBadIntent : Env :=
  { classifierCall := fun _ => Except.ok [("intent", Value.other "7")],
    extractorCall := fun _ => Except.ok [("search_query", Value.str "q")],
    synthCall := fun _ _ _ => Except.ok [("response", Value.str "resp")] }

/-- The extractor call succeeds but returns no "search_query" field. -/
def envBadQuery : Env :=
  { classifierCall := fun _ => Except.ok [("intent", Value.str "search")],
    extractorCall := fun _ => Except.ok [("unrelated", Value.str "q")],
    synthCall := fun _ _ _ => Except.ok [("response", Value.str "resp")] }

/-- The synthesizer call succeeds but its "response" field is not a string. -/
def envBadResp : Env :=
  { classifierCall := fun _ => Except.ok [("intent", Value.str "chat")],
    extractorCall := fun _ => Except.ok [("search_query", Value.str "q")],
    synthCall := fun _ _ _ => Except.ok [("response", Value.other "null")] }

/-- The inputs built for the one-shot counterexample turn. -/
def inputsHello : Fields :=
  [("user_message", Value.str "hello"), ("conversation_history", Value.str "")]

/-! ### Helper lemmas -/

theorem getField_append (l : Fields) (k : String) (v : Value) (key : String) :
    getField (l ++ [(k, v)]) key =
      match getField l key with
      | some w => some w
      | none => if k = key then some v else none := by
  induction l with
  | nil => rfl
  | cons hd tl ih =>
    obtain ⟨k', v'⟩ := hd
    by_cases h : k' = key
    · simp [getField, h]
    · simp [getField, h, ih]

theorem unwrapStr_panic_of_not_str (fields : Fields) (key : String)
    (h : isStrField fields key = false) :
    unwrapStr (getField fields key) = Outcome.panic := by
  unfold isStrField at h
  cases hg : getField fields key with
  | none => simp [unwrapStr]
  | some v =>
    cases v with
    | str s => rw [hg] at h; simp at h
    | other r => simp [unwrapStr]

theorem searchRes_ok_shape (env : Env) (q a b : String)
    (h : searchRes env q = Outcome.ok (a, b)) : b = search_web a := by
  unfold searchRes at h
  split at h
  · simp at h
  · split at h
    · simp only [Outcome.ok.injEq, Prod.mk.injEq] at h
      obtain ⟨h1, h2⟩ := h
      rw [← h1, ← h2]
    · simp at h
    · simp at h

theorem forward_turnInputs (env : Env) (history : List String) (m : String) :
    forward env (turnInputs history m) = forwardCore env m (histStr history) := rfl

theorem forwardCore_ok_path (env : Env) (um hist intent : String)
    (sr : Option String) (evS : List Event)
    (h1 : classifyRes env um = Outcome.ok intent)
    (h2 : searchStep env um intent = (Outcome.ok sr, evS)) :
    forwardCore env um hist =
      (mapOut (respondRes env um hist sr),
       (Event.classifierCalled um :: evS) ++
         [Event.synthCalled hist um (Option.getD sr "")]) := by
  simp only [forwardCore, h1, h2]

theorem forwardCore_classify_err (env : Env) (um hist e : String)
    (h1 : classifyRes env um = Outcome.err e) :
    forwardCore env um hist = (Outcome.err e, [Event.classifierCalled um]) := by
  simp only [forwardCore, h1]

theorem runTurn_ok_some_shape (env : Env) (history : List String) (m : String)
    (h' : List String) (r : String)
    (h : runTurn env history m = Outcome.ok (h', some r)) :
    h' = history ++ ["User: " ++ m, "Assistant: " ++ r] := by
  unfold runTurn at h
  split at h
  · split at h
    · simp only [Outcome.ok.injEq, Prod.mk.injEq, Option.some.injEq] at h
      obtain ⟨h1, h2⟩ := h
      rw [← h1, h2]
    · simp at h
    · simp at h
  · simp at h
  · simp at h

theorem runTurn_ok_none_shape (env : Env) (history : List String) (m : String)
    (h' : List String)
    (h : runTurn env history m = Outcome.ok (h', none)) : h' = history := by
  unfold runTurn at h
  split at h
  · split at h
    · simp at h
    · simp at h
    · simp at h
  · simp only [Outcome.ok.injEq, Prod.mk.injEq] at h
    exact h.1.symm
  · simp at h

theorem renderHistory_append (ps qs : List (String × String)) :
    renderHistory (ps ++ qs) = renderHistory ps ++ renderHistory qs := by
  induction ps with
  | nil => rfl
  | cons p rest ih => obtain ⟨u, a⟩ := p; simp [renderHistory, ih]

theorem renderHistory_length (ps : List (String × String)) :
    (renderHistory ps).length = 2 * ps.length := by
  induction ps with
  | nil => rfl
  | cons p rest ih =>
    obtain ⟨u, a⟩ := p
    simp [renderHistory, ih]
    ring

/-! ### Claims -/

/-- C8: the retrieval function `search_web` never fails (it is a total
function into `String`) and returns exactly the text
"Trump is currently the president in 2025" for every query, independent of
the query argument. -/
theorem C8_search_web_constant (q : String) :
    search_web q = "Trump is currently the president in 2025" := rfl

/-- C4: the classifier normalization maps a free-text output to "search"
iff it contains the substring "search" case-insensitively (lowercase the
output, then check substring containment), and to "chat" otherwise; the
result is always one of these two labels, and the five quoted examples
normalize as the claim states. -/
theorem C4_intent_normalization :
    (∀ raw : String,
      (normalizeIntent raw = "search" ↔
        strContains (lowerStr raw) (lowerStr "search") = true) ∧
      (normalizeIntent raw = "search" ∨ normalizeIntent raw = "chat")) ∧
    normalizeIntent "SEARCH" = "search" ∧
    normalizeIntent "Search needed" = "search" ∧
    normalizeIntent "please search" = "search" ∧
    normalizeIntent "hello there" = "chat" ∧
    normalizeIntent "" = "chat" := by
  refine ⟨fun raw => ⟨?_, ?_⟩, by decide, by decide, by decide, by decide, by decide⟩
  · have hl : lowerStr "search" = "search" := by decide
    rw [hl]
    unfold normalizeIntent
    cases hb : strContains (lowerStr raw) "search" with
    | false => simp [hb]
    | true => simp [hb]
  · unfold normalizeIntent
    split
    · exact Or.inl rfl
    · exact Or.inr rfl

/-- C1 (counterexample): with a classifier whose call fails and a
synthesizer that succeeds on every input, `forward` returns the classifier
error instead of a successful result, and never calls the synthesizer —
refuting the claim that a classification failure degrades gracefully and
that the pipeline succeeds whenever synthesis succeeds. -/
theorem C1_counterexample :
    envClassFail.synthCall "" "hello" "" = Except.ok [("response", Value.str "hi")] ∧
    respondRes envClassFail "hello" "" none = Outcome.ok "hi" ∧
    (forward envClassFail inputsHello).1 = Outcome.err "classifier down" ∧
    (forward envClassFail inputsHello).2 = [Event.classifierCalled "hello"] :=
  ⟨rfl, by decide, by decide, by decide⟩

/-- C1 (amended): if the Intent Classifier call fails, `forward` propagates
the failure via `?`: the turn fails with the classifier's error, and
neither retrieval nor synthesis is attempted.  (Only ambiguous classifier
output, which normalizes to "chat", and retrieval failures are degraded
gracefully — not a failed classifier call.) -/
theorem C1_classifier_failure_fails_turn (env : Env) (inputs : Fields)
    (um : Value) (e : String)
    (h1 : getField inputs "user_message" = some um)
    (h2 : env.classifierCall (renderValue um) = Except.error e) :
    (forward env inputs).1 = Outcome.err e ∧
    (forward env inputs).2 = [Event.classifierCalled (renderValue um)] := by
  have hc : classifyRes env (renderValue um) = Outcome.err e := by
    unfold classifyRes; rw [h2]
  have hf : forward env inputs = forwardCore env (renderValue um) (historyOf inputs) := by
    unfold forward; rw [h1]
  rw [hf, forwardCore_classify_err env (renderValue um) (historyOf inputs) e hc]
  exact ⟨rfl, rfl⟩

/-- C1 (amended, witness): concrete run of the amended claim. -/
theorem C1_classifier_failure_fails_turn_witness :
    (forward envClassFail inputsHello).1 = Outcome.err "classifier down" ∧
    (forward envClassFail inputsHello).2 = [Event.classifierCalled "hello"] :=
  C1_classifier_failure_fails_turn envClassFail inputsHello (Value.str "hello")
    "classifier down" (by decide) rfl

/-- C2: when the Response Synthesizer call fails, `forward` returns that
error (no response is produced), and the interactive loop leaves the
conversation history unchanged for the failed turn: no User line and no
Assistant line is appended. -/
theorem C2_synthesis_failure_leaves_history_unchanged (env : Env)
    (history : List String) (message intent e : String)
    (sr : Option String) (evS : List Event)
    (h1 : classifyRes env message = Outcome.ok intent)
    (h2 : searchStep env message intent = (Outcome.ok sr, evS))
    (h3 : env.synthCall (histStr history) message (Option.getD sr "") = Except.error e) :
    (forward env (turnInputs history message)).1 = Outcome.err e ∧
    runTurn env history message = Outcome.ok (history, none) := by
  have hr : respondRes env message (histStr history) sr = Outcome.err e := by
    unfold respondRes; rw [h3]
  have hf : (forward env (turnInputs history message)).1 = Outcome.err e := by
    rw [forward_turnInputs,
        forwardCore_ok_path env message (histStr history) intent sr evS h1 h2]
    simp [mapOut, hr]
  refine ⟨hf, ?_⟩
  unfold runTurn
  rw [hf]

/-- C2 (witness): concrete failing-synthesis turn on an empty history. -/
theorem C2_synthesis_failure_witness :
    (forward envSynthFail (turnInputs [] "hi")).1 = Outcome.err "synth down" ∧
    runTurn envSynthFail [] "hi" = Outcome.ok ([], none) :=
  C2_synthesis_failure_leaves_history_unchanged envSynthFail [] "hi" "chat"
    "synth down" none [] (by decide) (by decide) rfl

/-- C3: when the message is classified "search" and the Retrieval Tool
fails, `forward` proceeds to synthesis with the empty string as the
search-results input, and returns a successful result whenever synthesis
succeeds. -/
theorem C3_retrieval_failure_degrades (env : Env) (inputs : Fields) (um : Value)
    (e r : String)
    (h1 : getField inputs "user_message" = some um)
    (h2 : classifyRes env (renderValue um) = Outcome.ok "search")
    (h3 : searchRes env (renderValue um) = Outcome.err e)
    (h4 : env.synthCall (historyOf inputs) (renderValue um) "" =
      Except.ok [("response", Value.str r)]) :
    (forward env inputs).1 = Outcome.ok [("response", Value.str r)] ∧
    Event.synthCalled (historyOf inputs) (renderValue um) "" ∈ (forward env inputs).2 := by
  have hstep : searchStep env (renderValue um) "search" =
      (Outcome.ok none, [Event.extractorCalled (renderValue um)]) := by
    unfold searchStep
    rw [if_pos rfl, h3]
  have hresp : respondRes env (renderValue um) (historyOf inputs) none = Outcome.ok r := by
    unfold respondRes
    simp only [Option.getD_none]
    rw [h4]
    rfl
  have hf : forward env inputs = forwardCore env (renderValue um) (historyOf inputs) := by
    unfold forward; rw [h1]
  rw [hf, forwardCore_ok_path env (renderValue um) (historyOf inputs) "search" none
    [Event.extractorCalled (renderValue um)] h2 hstep]
  constructor
  · simp [mapOut, hresp]
  · simp

/-- C3 (witness): failed query extraction followed by successful
synthesis. -/
theorem C3_retrieval_failure_degrades_witness :
    (forward envExtractFail inputsHello).1 = Outcome.ok [("response", Value.str "resp")] ∧
    Event.synthCalled "" "hello" "" ∈ (forward envExtractFail inputsHello).2 :=
  C3_retrieval_failure_degrades envExtractFail inputsHello (Value.str "hello")
    "extract down" "resp" (by decide) (by decide) (by decide) rfl

/-- C5: when the classified intent is anything other than "search", the
Retrieval Tool is never invoked during the turn: the event trace of
`forward` contains no query-extraction call and no `search_web` call. -/
theorem C5_no_retrieval_on_chat (env : Env) (inputs : Fields) (um : Value)
    (intent : String)
    (h1 : getField inputs "user_message" = some um)
    (h2 : classifyRes env (renderValue um) = Outcome.ok intent)
    (h3 : intent ≠ "search") :
    ((forward env inputs).2).all (fun ev => !(isRetrievalEvent ev)) = true := by
  have hstep : searchStep env (renderValue um) intent = (Outcome.ok none, []) := by
    unfold searchStep; rw [if_neg h3]
  have hf : forward env inputs = forwardCore env (renderValue um) (historyOf inputs) := by
    unfold forward; rw [h1]
  rw [hf, forwardCore_ok_path env (renderValue um) (historyOf inputs) intent none [] h2 hstep]
  simp [isRetrievalEvent]

/-- C5 (witness): a turn classified "chat" makes no retrieval calls. -/
theorem C5_no_retrieval_on_chat_witness :
    ((forward envChatOk inputsHello).2).all (fun ev => !(isRetrievalEvent ev)) = true :=
  C5_no_retrieval_on_chat envChatOk inputsHello (Value.str "hello") "chat"
    (by decide) (by decide) (by decide)

/-- C6: when the intent is "search" and the Retrieval Tool succeeds with
`(query, results)`, the results text equals `search_web query` verbatim,
and the synthesizer is invoked with exactly that text as its
search-results input field. -/
theorem C6_search_results_verbatim (env : Env) (inputs : Fields) (um : Value)
    (query results : String)
    (h1 : getField inputs "user_message" = some um)
    (h2 : classifyRes env (renderValue um) = Outcome.ok "search")
    (h3 : searchRes env (renderValue um) = Outcome.ok (query, results)) :
    results = search_web query ∧
    Event.synthCalled (historyOf inputs) (renderValue um) results ∈ (forward env inputs).2 := by
  have hres : results = search_web query :=
    searchRes_ok_shape env (renderValue um) query results h3
  have hstep : searchStep env (renderValue um) "search" =
      (Outcome.ok (some results),
       [Event.extractorCalled (renderValue um), Event.searchWebCalled query]) := by
    unfold searchStep
    rw [if_pos rfl, h3]
  have hf : forward env inputs = forwardCore env (renderValue um) (historyOf inputs) := by
    unfold forward; rw [h1]
  refine ⟨hres, ?_⟩
  rw [hf, forwardCore_ok_path env (renderValue um) (historyOf inputs) "search"
    (some results) [Event.extractorCalled (renderValue um), Event.searchWebCalled query]
    h2 hstep]
  simp

/-- C6 (witness): concrete successful search turn; the synthesizer receives
the verbatim `search_web` output for the extracted query. -/
theorem C6_search_results_verbatim_witness :
    "Trump is currently the president in 2025" = search_web "president" ∧
    Event.synthCalled "" "hello" "Trump is currently the president in 2025" ∈
      (forward envSearchOk inputsHello).2 :=
  C6_search_results_verbatim envSearchOk inputsHello (Value.str "hello") "president"
    "Trump is currently the president in 2025" (by decide) (by decide) (by decide)

theorem runSession_shape (env : Env) (msgs : List String) :
    ∀ (ps : List (String × String)) (hist : List String) (n : Nat),
      runSession env (renderHistory ps) msgs = Outcome.ok (hist, n) →
      ∃ qs : List (String × String), hist = renderHistory (ps ++ qs) ∧ qs.length = n := by
  induction msgs with
  | nil =>
    intro ps hist n h
    unfold runSession at h
    simp only [Outcome.ok.injEq, Prod.mk.injEq] at h
    exact ⟨[], by simp [← h.1], by simp [← h.2]⟩
  | cons m ms ih =>
    intro ps hist n h
    unfold runSession at h
    split at h
    · rename_i h' r heq
      split at h
      · rename_i hf k heq2
        simp only [Outcome.ok.injEq, Prod.mk.injEq] at h
        obtain ⟨hh, hn⟩ := h
        have hshape : h' = renderHistory (ps ++ [(m, r)]) := by
          rw [renderHistory_append]
          simpa [renderHistory] using runTurn_ok_some_shape env (renderHistory ps) m h' r heq
        rw [hshape] at heq2
        obtain ⟨qs, hq, hl⟩ := ih (ps ++ [(m, r)]) hf k heq2
        refine ⟨(m, r) :: qs, ?_, ?_⟩
        · rw [← hh, hq]
          simp
        · simp [hl, ← hn]
      · simp at h
      · simp at h
    · rename_i h' heq
      have hshape : h' = renderHistory ps :=
        runTurn_ok_none_shape env (renderHistory ps) m h' heq
      rw [hshape] at h
      exact ih ps hist n h
    · simp at h
    · simp at h

/-- C7: after a session of turns of which exactly `n` succeeded, the
conversation history is the rendering of `n` completed (user, assistant)
exchanges: it has exactly `2 * n` entries, alternating a "User: ..." line
then an "Assistant: ..." line in chronological order; the shape is
preserved by every turn (successful turns append one pair, failed turns
leave the history unchanged). -/
theorem C7_history_alternating_pairs (env : Env) (msgs hist : List String) (n : Nat)
    (h : runSession env [] msgs = Outcome.ok (hist, n)) :
    ∃ qs : List (String × String),
      hist = renderHistory qs ∧ qs.length = n ∧ hist.length = 2 * n := by
  obtain ⟨qs, hq, hlen⟩ := runSession_shape env msgs [] hist n h
  refine ⟨qs, by simpa using hq, hlen, ?_⟩
  rw [hq]
  simp [renderHistory_length, hlen]

/-- C7 (witness): a one-message session with one successful turn yields the
two-line history (User, Assistant). -/
theorem C7_history_alternating_pairs_witness :
    ∃ qs : List (String × String),
      ["User: hi", "Assistant: 4"] = renderHistory qs ∧ qs.length = 1 ∧
      (["User: hi", "Assistant: 4"] : List String).length = 2 * 1 :=
  C7_history_alternating_pairs envChatOk ["hi"] ["User: hi", "Assistant: 4"] 1 (by decide)

/-- C9: a predictor result that lacks its declared output field, or whose
field value is not a string, makes the program panic (the modelled
`as_str().unwrap()`), never a recoverable error — for the classifier's
"intent", the extractor's "search_query" and the synthesizer's "response"
fields — and an orchestrator input lacking "user_message" panics in
`forward` before any call is made. -/
theorem C9_schema_violation_panics :
    (∀ (env : Env) (inputs : Fields), getField inputs "user_message" = none →
      forward env inputs = (Outcome.panic, [])) ∧
    (∀ (env : Env) (msg : String) (fields : Fields),
      env.classifierCall msg = Except.ok fields → isStrField fields "intent" = false →
      classifyRes env msg = Outcome.panic) ∧
    (∀ (env : Env) (q : String) (fields : Fields),
      env.extractorCall q = Except.ok fields → isStrField fields "search_query" = false →
      searchRes env q = Outcome.panic) ∧
    (∀ (env : Env) (hst msg : String) (sr : Option String) (fields : Fields),
      env.synthCall hst msg (Option.getD sr "") = Except.ok fields →
      isStrField fields "response" = false →
      respondRes env msg hst sr = Outcome.panic) := by
  refine ⟨?_, ?_, ?_, ?_⟩
  · intro env inputs h
    unfold forward; rw [h]
  · intro env msg fields hc hs
    simp only [classifyRes, hc, unwrapStr_panic_of_not_str fields "intent" hs]
  · intro env q fields hc hs
    simp only [searchRes, hc, unwrapStr_panic_of_not_str fields "search_query" hs]
  · intro env hst msg sr fields hc hs
    simp only [respondRes, hc, unwrapStr_panic_of_not_str fields "response" hs]

/-- C9 (witness): concrete schema violations at each stage all panic. -/
theorem C9_schema_violation_panics_witness :
    forward envChatOk [] = (Outcome.panic, []) ∧
    classifyRes envBadIntent "x" = Outcome.panic ∧
    searchRes envBadQuery "x" = Outcome.panic ∧
    respondRes envBadResp "m" "h" none = Outcome.panic :=
  ⟨C9_schema_violation_panics.1 envChatOk [] rfl,
   C9_schema_violation_panics.2.1 envBadIntent "x" [("intent", Value.other "7")]
     rfl (by decide),
   C9_schema_violation_panics.2.2.1 envBadQuery "x" [("unrelated", Value.str "q")]
     rfl (by decide),
   C9_schema_violation_panics.2.2.2 envBadResp "h" "m" none
     [("response", Value.other "null")] rfl (by decide)⟩

/-- C10: an orchestrator input without a "conversation_history" field is
processed exactly as if that field were present with the empty string (the
`unwrap_or_else(String::new)` default), while an input without
"user_message" panics. -/
theorem C10_missing_history_defaults_empty (env : Env) (inputs : Fields)
    (h1 : getField inputs "conversation_history" = none) :
    forward env inputs =
      forward env (inputs ++ [("conversation_history", Value.str "")]) ∧
    (getField inputs "user_message" = none → (forward env inputs).1 = Outcome.panic) := by
  have hum : getField (inputs ++ [("conversation_history", Value.str "")]) "user_message" =
      getField inputs "user_message" := by
    rw [getField_append]
    cases hg : getField inputs "user_message" with
    | some w => rfl
    | none => simp
  have hhist : historyOf (inputs ++ [("conversation_history", Value.str "")]) = "" := by
    unfold historyOf
    rw [getField_append, h1]
    rfl
  have hhist0 : historyOf inputs = "" := by
    unfold historyOf; rw [h1]
  constructor
  · unfold forward
    rw [hum]
    cases hg : getField inputs "user_message" with
    | none => simp [hg]
    | some um => simp [hg, hhist0, hhist]
  · intro h
    unfold forward; rw [h]

/-- C10 (witness): concrete input with no history field. -/
theorem C10_missing_history_defaults_empty_witness :
    forward envChatOk [("user_message", Value.str "hi")] =
      forward envChatOk ([("user_message", Value.str "hi")] ++
        [("conversation_history", Value.str "")]) ∧
    (getField [("user_message", Value.str "hi")] "user_message" = none →
      (forward envChatOk [("user_message", Value.str "hi")]).1 = Outcome.panic) :=
  C10_missing_history_defaults_empty envChatOk [("user_message", Value.str "hi")] (by decide)

end DspySearch
